import Mathlib

/-!
Verification development for the pMMG spasticity measurement program.

The program ingests a line-oriented telemetry stream, drives a small
acquisition state machine on numeric status codes, computes knee and
ankle joint angles from quaternion orientations relative to a
calibration pose, and persists each session to a text file.

This file gives a shallow embedding of that core:
quaternion algebra, record parsing, the calibration and batch
computations, the protocol state machine with its file writer, and the
load-and-recompute path, together with theorems checking the
natural-language specification against the embedded code.

Modelling conventions: machine floats become real numbers; parsed
numeric text becomes exact rationals (float literals in the stream are
plain signed decimals); the float-to-string formatter used when the
header of a session file is written is an explicit parameter fstr of
the machine, since decimal formatting of binary floats is not modelled.
Division by zero in the embedding yields 0 where numpy would produce
nan or inf; no claim below depends on such inputs.
-/

set_option maxRecDepth 10000

noncomputable section

/-- A quaternion as the 4-component array (w, x, y, z) used by the
program; scalar part w, vector part (x, y, z). -/
structure Quat where
  w : ℝ
  x : ℝ
  y : ℝ
  z : ℝ

namespace Quat

/-- Euclidean norm of the four components, as np.linalg.norm. -/
def norm (q : Quat) : ℝ :=
  Real.sqrt (q.w ^ 2 + q.x ^ 2 + q.y ^ 2 + q.z ^ 2)

/-- Componentwise division by the Euclidean norm, as the expression
q / np.linalg.norm(q) inside Quaternion.mult. -/
def normalize (q : Quat) : Quat :=
  ⟨q.w / q.norm, q.x / q.norm, q.y / q.norm, q.z / q.norm⟩

/-- Quaternion.mult: normalizes both inputs, then returns their
Hamilton product (not re-normalized). -/
def mult (q1 q2 : Quat) : Quat :=
  let a := q1.normalize
  let b := q2.normalize
  ⟨a.w * b.w - a.x * b.x - a.y * b.y - a.z * b.z,
   a.w * b.x + a.x * b.w + a.y * b.z - a.z * b.y,
   a.w * b.y - a.x * b.z + a.y * b.w + a.z * b.x,
   a.w * b.z + a.x * b.y - a.y * b.x + a.z * b.w⟩

/-- Quaternion.conj: negate the vector part, keep the scalar part. -/
def conj (q : Quat) : Quat :=
  ⟨q.w, -q.x, -q.y, -q.z⟩

/-- Quaternion.angle: twice the inverse cosine of the scalar part.
The source applies np.arccos to q[0] directly, with no explicit
clipping. -/
def angle (q : Quat) : ℝ :=
  2 * Real.arccos q.w

/-- np.dot of two quaternions viewed as 4-vectors. -/
def dot (q1 q2 : Quat) : ℝ :=
  q1.w * q2.w + q1.x * q2.x + q1.y * q2.y + q1.z * q2.z

end Quat

/-- np.clip of a scalar to the interval from lo to hi. -/
def npClip (a lo hi : ℝ) : ℝ :=
  min (max a lo) hi

/-- np.degrees: radians to degrees. -/
def degrees (x : ℝ) : ℝ :=
  x * (180 / Real.pi)

/-- Quaternion.calculate_angle: normalized absolute dot product,
clipped, then twice the inverse cosine, converted to degrees. -/
def Quat.calculate_angle (q1 q2 : Quat) : ℝ :=
  degrees (2 * Real.arccos (npClip |Quat.dot q1 q2 / (Quat.norm q1 * Quat.norm q2)| (-1) 1))

/-- The identity quaternion (1, 0, 0, 0). -/
def Quat.one : Quat := ⟨1, 0, 0, 0⟩

/-- Split a character list at every occurrence of the separator, as
Python str.split with a one-character separator; the empty input gives
one empty group. -/
def splitChar (sep : Char) : List Char → List (List Char)
  | [] => [[]]
  | c :: cs =>
    let r := splitChar sep cs
    if c = sep then [] :: r
    else (c :: r.headD []) :: r.tail

/-- str.split on a string with a one-character separator. -/
def splitF (sep : Char) (s : String) : List String :=
  (splitChar sep s.data).map (fun g => String.mk g)

/-- Join strings with a separator, as str.join. -/
def joinSep (sep : String) : List String → String
  | [] => ""
  | [s] => s
  | s :: ss => s ++ sep ++ joinSep sep ss

/-- Accumulate decimal digits left to right; a non-digit character
fails. -/
def digitsVal : List Char → ℕ → Option ℕ
  | [], acc => some acc
  | c :: cs, acc => if c.isDigit then digitsVal cs (10 * acc + (c.toNat - 48)) else none

/-- Python float conversion restricted to unsigned plain decimal
literals: digits with an optional decimal point somewhere, at least
one digit overall. Exponents, infinities, nan, underscores and inner
whitespace are not modelled; no line relevant to the claims uses
them. -/
def parseUnsigned (s : List Char) : Option ℚ :=
  match splitChar '.' s with
  | [ip] => if ip = [] then none else (digitsVal ip 0).map (fun n => (n : ℚ))
  | [ip, fp] =>
    if ip = [] ∧ fp = [] then none
    else
      match digitsVal ip 0, digitsVal fp 0 with
      | some a, some b => some ((a : ℚ) + (b : ℚ) / (10 : ℚ) ^ fp.length)
      | _, _ => none
  | _ => none

/-- Python float conversion of one field: optional sign, then an
unsigned plain decimal literal. -/
def parseFloat (s : String) : Option ℚ :=
  match s.data with
  | '-' :: rest => (parseUnsigned rest).map (fun q => -q)
  | '+' :: rest => parseUnsigned rest
  | _ => parseUnsigned s.data

/-- Sequence a fallible conversion over a list, as list(map(f, xs)) in
Python where any element failure raises. -/
def mapOpt (f : α → Option β) : List α → Option (List β)
  | [] => some []
  | a :: as =>
    match f a, mapOpt f as with
    | some b, some bs => some (b :: bs)
    | _, _ => none

/-- Parse one buffered line into its numeric fields, as
list(map(float, x.split(','))). -/
def parseRecord (l : String) : Option (List ℚ) :=
  mapOpt parseFloat (splitF ',' l)

/-- Parse a whole acquisition buffer, as the comprehension that feeds
np.array; any malformed line raises. -/
def parseBuffer (ls : List String) : Option (List (List ℚ)) :=
  mapOpt parseRecord ls

/-- All rows of equal length, as np.array needs to build a numeric
two-dimensional array; a ragged buffer makes the subsequent slicing
raise. -/
def eqLen : List (List ℚ) → Bool
  | [] => true
  | r :: rs => rs.all (fun q => q.length == r.length)

/-- Cast the parsed rational rows to the real matrix the numeric code
operates on. -/
def rowsToR (rows : List (List ℚ)) : List (List ℝ) :=
  rows.map (fun r => r.map (fun q => (q : ℝ)))

/-- The quaternion at columns i to i+3 of a row, as a numpy slice of
four columns unpacked to (w, x, y, z). -/
def quatAt (r : List ℝ) (i : ℕ) : Quat :=
  ⟨r.getD i 0, r.getD (i + 1) 0, r.getD (i + 2) 0, r.getD (i + 3) 0⟩

/-- Columns 2 to 13 of one row, the twelve quaternion components, as
the slice data[:, 2:14] of one record. -/
def rowQuats (r : List ℝ) : List ℝ :=
  (r.drop 2).take 12

/-- Column 1 of each row: the timestamps, data[:, 1]. -/
def colTime (rows : List (List ℝ)) : List ℝ :=
  rows.map (fun r => r.getD 1 0)

/-- Column 14 of each row: the pressure, data[:, 14]. -/
def colPressure (rows : List (List ℝ)) : List ℝ :=
  rows.map (fun r => r.getD 14 0)

/-- The knee quaternion of one record, from SerialReader.process_data:
mult(mult(q_shank, conj(q_si)), mult(q_ti, conj(q_thigh))), with
q_thigh at columns 2:6 and q_shank at columns 6:10. -/
def kneeQuat (ti si : Quat) (r : List ℝ) : Quat :=
  Quat.mult (Quat.mult (quatAt r 6) (Quat.conj si)) (Quat.mult ti (Quat.conj (quatAt r 2)))

/-- The ankle quaternion of one record, from
SerialReader.process_data: mult(mult(q_foot, conj(q_fi)),
mult(q_si, conj(q_shank))), with q_foot at columns 10:14. -/
def ankleQuat (si fi : Quat) (r : List ℝ) : Quat :=
  Quat.mult (Quat.mult (quatAt r 10) (Quat.conj fi)) (Quat.mult si (Quat.conj (quatAt r 6)))

/-- q_k of process_data: the knee quaternion of every record. -/
def qKList (ti si : Quat) (rows : List (List ℝ)) : List Quat :=
  rows.map (kneeQuat ti si)

/-- q_a of process_data: the ankle quaternion of every record. -/
def qAList (si fi : Quat) (rows : List (List ℝ)) : List Quat :=
  rows.map (ankleQuat si fi)

/-- knee_angle of process_data: np.degrees of the angle of each knee
quaternion. -/
def kneeAngles (ti si : Quat) (rows : List (List ℝ)) : List ℝ :=
  (qKList ti si rows).map (fun q => degrees (Quat.angle q))

/-- ankle_angle of process_data. -/
def ankleAngles (si fi : Quat) (rows : List (List ℝ)) : List ℝ :=
  (qAList si fi rows).map (fun q => degrees (Quat.angle q))

/-- Euclidean norm of a list of reals, np.linalg.norm of one row. -/
def vnormL (l : List ℝ) : ℝ :=
  Real.sqrt ((l.map (fun x => x ^ 2)).sum)

/-- Columnwise mean of the first n columns, np.mean(axis=0). -/
def meanCols (ls : List (List ℝ)) (n : ℕ) : List ℝ :=
  (List.range n).map (fun j => (ls.map (fun r => r.getD j 0)).sum / ls.length)

/-- avg_quaternions of calculate_initial_state: each row of twelve
quaternion components is divided by the joint Euclidean norm of all
twelve components of that row (np.linalg.norm over axis 1 of the
twelve-column slice), then the rows are averaged componentwise. -/
def avgCalibQ (rows : List (List ℝ)) : List ℝ :=
  meanCols (rows.map (fun r => (rowQuats r).map (fun x => x / vnormL (rowQuats r)))) 12

/-- Build a quaternion from the first four entries of a list. -/
def quatOfList (l : List ℝ) : Quat :=
  ⟨l.getD 0 0, l.getD 1 0, l.getD 2 0, l.getD 3 0⟩

/-- q_ti of calculate_initial_state: avg_quaternions[:4]. -/
def calib_q_ti (rows : List (List ℝ)) : Quat :=
  quatOfList ((avgCalibQ rows).take 4)

/-- q_si of calculate_initial_state: avg_quaternions[4:8]. -/
def calib_q_si (rows : List (List ℝ)) : Quat :=
  quatOfList (((avgCalibQ rows).drop 4).take 4)

/-- q_fi of calculate_initial_state: avg_quaternions[8:12]. -/
def calib_q_fi (rows : List (List ℝ)) : Quat :=
  quatOfList (((avgCalibQ rows).drop 8).take 4)

/-- A second definition following the words of the spec, for
comparison only: per-segment calibration averaging, in which the
sample quaternion of one segment (columns off to off+3) is normalized
to unit norm on its own before the componentwise average across
samples. -/
def specSegMean (rows : List (List ℝ)) (off : ℕ) : Quat :=
  quatOfList (meanCols (rows.map (fun r =>
    ((r.drop off).take 4).map (fun x => x / vnormL ((r.drop off).take 4)))) 4)

/-- A second definition following the words of the spec, for
comparison only: angular separation as the clamp of the absolute dot
product divided by the product of the norms, doubled inverse cosine,
in degrees. -/
def specAngularSep (q1 q2 : Quat) : ℝ :=
  degrees (2 * Real.arccos (npClip (|Quat.dot q1 q2| / (Quat.norm q1 * Quat.norm q2)) (-1) 1))

/-- The FileHandler: the running session index, the currently open
file as the list of lines written so far, and the closed files left on
disk. -/
structure FileHandler where
  session_index : ℕ
  file : Option (List String)
  saved : List (List String)

/-- FileHandler.open_new_file: a no-op when a file is already open;
otherwise create the next session file, write one key=value line per
header entry followed by a blank separator line, and advance the
session index. -/
def openNewFile (hdr : List String) (fh : FileHandler) : FileHandler :=
  if fh.file.isSome then fh
  else { fh with session_index := fh.session_index + 1, file := some (hdr ++ [""]) }

/-- FileHandler.write_line: append one line when a file is open,
otherwise do nothing. -/
def writeLine (l : String) (fh : FileHandler) : FileHandler :=
  { fh with file := fh.file.map (fun c => c ++ [l]) }

/-- FileHandler.close_file: move the open file, if any, to the disk
and clear the handle; idempotent. -/
def closeFile (fh : FileHandler) : FileHandler :=
  match fh.file with
  | none => fh
  | some c => { fh with file := none, saved := fh.saved ++ [c] }

/-- The events the reader emits to the presentation layer. -/
inductive Event where
  | stateChanged (code : String)
  | initialAngles (knee ankle : ℝ)
  | dataProcessed (time : List ℝ) (quats : List (List ℝ)) (press knee ankle : List ℝ)

/-- The SerialReader state: the collecting flag, the acquisition
buffer of raw lines, the calibration pose and initial angles, the
file handler, the events emitted so far, and whether an uncaught
exception has ended the read loop. -/
structure MachineState where
  collecting : Bool
  data_buffer : List String
  q_ti : Option Quat
  q_si : Option Quat
  q_fi : Option Quat
  initial_knee_angle : Option ℝ
  initial_ankle_angle : Option ℝ
  file_handler : FileHandler
  events : List Event
  crashed : Bool

/-- SerialReader.__init__: nothing collected, no pose, first session
index, no open file. -/
def initState : MachineState :=
  { collecting := false, data_buffer := [], q_ti := none, q_si := none,
    q_fi := none, initial_knee_angle := none, initial_ankle_angle := none,
    file_handler := { session_index := 1, file := none, saved := [] },
    events := [], crashed := false }

/-- Serialize one header value: a quaternion array becomes its four
components joined by commas through the float formatter fstr; the
uninitialized value becomes the text None, as str(None). -/
def serQuat (fstr : ℝ → String) : Option Quat → String
  | none => "None"
  | some q => joinSep "," [fstr q.w, fstr q.x, fstr q.y, fstr q.z]

/-- Serialize one scalar header value through fstr, or None. -/
def serVal (fstr : ℝ → String) : Option ℝ → String
  | none => "None"
  | some v => fstr v

/-- The header_data dictionary turned into key=value lines, in the
insertion order used at both call sites of open_new_file. -/
def headerLines (fstr : ℝ → String) (s : MachineState) : List String :=
  ["q_ti=" ++ serQuat fstr s.q_ti,
   "q_si=" ++ serQuat fstr s.q_si,
   "q_fi=" ++ serQuat fstr s.q_fi,
   "initial_knee_angle=" ++ serVal fstr s.initial_knee_angle,
   "initial_ankle_angle=" ++ serVal fstr s.initial_ankle_angle]

/-- SerialReader.calculate_initial_state. An empty buffer returns at
once, changing nothing. A buffer with an unparsable line raises, as
does one whose rows are ragged or too short for the twelve-column
slice; the model flags this with crashed. Otherwise the calibration
pose and initial angles are stored, a session file is opened with them
as header (a no-op when a file is already open), and the
initial-angles event is emitted. -/
def calcInitialState (fstr : ℝ → String) (s : MachineState) : MachineState :=
  if s.data_buffer = [] then s
  else
    match parseBuffer s.data_buffer with
    | none => { s with crashed := true }
    | some rows =>
      if 14 ≤ (rows.headD []).length ∧ eqLen rows = true then
        let rr := rowsToR rows
        let ti := calib_q_ti rr
        let si := calib_q_si rr
        let fi := calib_q_fi rr
        let knee := Quat.calculate_angle ti si
        let ankle := Quat.calculate_angle si fi
        let s1 := { s with q_ti := some ti, q_si := some si, q_fi := some fi,
                           initial_knee_angle := some knee,
                           initial_ankle_angle := some ankle }
        { s1 with file_handler := openNewFile (headerLines fstr s1) s1.file_handler,
                  events := s1.events ++ [Event.initialAngles knee ankle] }
      else { s with crashed := true }

/-- SerialReader.process_data. An empty buffer returns at once.
Unparsable lines, ragged rows, rows without all fifteen columns, or a
calibration pose still equal to None make the computation raise; the
model flags this with crashed. Otherwise the derived series event is
emitted and the buffer cleared. -/
def processData (s : MachineState) : MachineState :=
  if s.data_buffer = [] then s
  else
    match parseBuffer s.data_buffer with
    | none => { s with crashed := true }
    | some rows =>
      if 15 ≤ (rows.headD []).length ∧ eqLen rows = true then
        match s.q_ti, s.q_si, s.q_fi with
        | some ti, some si, some fi =>
          let rr := rowsToR rows
          { s with data_buffer := [],
                   events := s.events ++ [Event.dataProcessed (colTime rr)
                     (rr.map rowQuats) (colPressure rr)
                     (kneeAngles ti si rr) (ankleAngles si fi rr)] }
        | _, _, _ => { s with crashed := true }
      else { s with crashed := true }

/-- The status codes with dedicated branches in the read loop. -/
def controlCodes : List String := ["102", "103", "104", "105"]

/-- The status code of a line: the text before the first comma. -/
def lineCode (l : String) : String :=
  (splitF ',' l).headD ""

/-- Whether a line splits into at least two fields; with fewer, the
two-target unpacking of line.split raises. -/
def hasPayload (l : String) : Bool :=
  decide (2 ≤ (splitF ',' l).length)

/-- One iteration of the SerialReader.run read loop on a decoded,
stripped line. After an uncaught exception the loop is gone, so the
state no longer changes. An empty line is skipped. A line that does
not split into two pieces raises. Otherwise any code other than 0 is
emitted as a status event and the five-way branch of the source
runs. -/
def step (fstr : ℝ → String) (s : MachineState) (l : String) : MachineState :=
  if s.crashed then s
  else if l = "" then s
  else
    match splitF ',' l with
    | code :: _ :: _ =>
      let s0 := if code ≠ "0" then { s with events := s.events ++ [Event.stateChanged code] } else s
      if code = "102" then { s0 with data_buffer := [], collecting := true }
      else if code = "103" ∧ s0.collecting = true then
        let s1 := calcInitialState fstr s0
        if s1.crashed then s1 else { s1 with collecting := false }
      else if code = "104" then
        { s0 with data_buffer := [],
                  file_handler := openNewFile (headerLines fstr s0) s0.file_handler,
                  collecting := true }
      else if code = "105" ∧ s0.collecting = true then
        let s1 := processData s0
        if s1.crashed then s1
        else { s1 with collecting := false, file_handler := closeFile s1.file_handler }
      else if s0.collecting then
        let s1 := { s0 with data_buffer := s0.data_buffer ++ [l] }
        if code ∉ controlCodes then { s1 with file_handler := writeLine l s1.file_handler }
        else s1
      else s0
    | _ => { s with crashed := true }

/-- SerialReader.run folded over a list of decoded lines. -/
def run (fstr : ℝ → String) (s : MachineState) (ls : List String) : MachineState :=
  ls.foldl (step fstr) s

/-- A whole run followed by the cleanup of the finally block, which
closes any file still open, also after an uncaught exception. -/
def runFinally (fstr : ℝ → String) (s : MachineState) (ls : List String) : MachineState :=
  let e := run fstr s ls
  { e with file_handler := closeFile e.file_handler }

/-- The status events a list of buffered record lines emits: one per
line whose code is not 0. -/
def statusEvents (ls : List String) : List Event :=
  ls.filterMap (fun l => if lineCode l = "0" then none else some (Event.stateChanged (lineCode l)))

/-- Well-formedness of one sensor record line: its code is not a
control code and all of its fields parse as floats, fifteen of them. -/
def wfRecord (l : String) : Bool :=
  decide (lineCode l ∉ controlCodes) &&
    (match parseRecord l with
     | some r => r.length == 15
     | none => false)

/-- One header line split at the equals sign into a key and its
comma-separated float values, from SerialDataSaver.load_data; a line
that does not split into exactly two pieces, or whose values do not
all parse as floats, raises. -/
def parseHeaderKV (l : String) : Option (String × List ℚ) :=
  match splitF '=' l with
  | [k, v] => (mapOpt parseFloat (splitF ',' v)).map (fun vs => (k, vs))
  | _ => none

/-- Look up one pose key the way load_data reads it back through the
header dict (the last binding of a key wins) and the recomputation
then unpacks it as a 4-component quaternion, raising otherwise. -/
def getQuat (k : String) (kvs : List (String × List ℚ)) : Option Quat :=
  match kvs.reverse.lookup k with
  | none => none
  | some vs =>
    if vs.length = 4 then
      some ⟨((vs.getD 0 0 : ℚ) : ℝ), ((vs.getD 1 0 : ℚ) : ℝ),
            ((vs.getD 2 0 : ℚ) : ℝ), ((vs.getD 3 0 : ℚ) : ℝ)⟩
    else none

/-- Reconstruct the calibration pose from the header block of a
session file, as load_data does. -/
def loadHeaderPose (hdr : List String) : Option (Quat × Quat × Quat) :=
  match mapOpt parseHeaderKV hdr with
  | none => none
  | some kvs =>
    match getQuat "q_ti" kvs, getQuat "q_si" kvs, getQuat "q_fi" kvs with
    | some ti, some si, some fi => some (ti, si, fi)
    | _, _, _ => none

/-- q_k of SerialDataSaver.load_data, the offline recomputation. -/
def loadQK (ti si : Quat) (rows : List (List ℝ)) : List Quat :=
  rows.map (fun r => Quat.mult (Quat.mult (quatAt r 6) (Quat.conj si))
    (Quat.mult ti (Quat.conj (quatAt r 2))))

/-- q_a of SerialDataSaver.load_data. -/
def loadQA (si fi : Quat) (rows : List (List ℝ)) : List Quat :=
  rows.map (fun r => Quat.mult (Quat.mult (quatAt r 10) (Quat.conj fi))
    (Quat.mult si (Quat.conj (quatAt r 6))))

/-- knee_angle as recomputed by load_data. -/
def loadKneeAngles (ti si : Quat) (rows : List (List ℝ)) : List ℝ :=
  (loadQK ti si rows).map (fun q => degrees (Quat.angle q))

/-- ankle_angle as recomputed by load_data. -/
def loadAnkleAngles (si fi : Quat) (rows : List (List ℝ)) : List ℝ :=
  (loadQA si fi rows).map (fun q => degrees (Quat.angle q))

/-- SerialDataSaver.load_data on the lines of a session file: read
key=value lines until the blank separator, reconstruct the pose, parse
the remaining non-blank lines as the record matrix, and recompute the
knee and ankle angle series. np.loadtxt skips blank lines and raises
on ragged or non-numeric data; with no data row the later slicing
raises, and with exactly one data row np.loadtxt returns a
one-dimensional array (its default ndmin is 0), so the
two-dimensional column slicing data[:, 1] raises as well. The
recomputation therefore succeeds only with at least two rows, each
carrying all fifteen columns. -/
def loadData (content : List String) : Option (List ℝ × List ℝ) :=
  let hdr := content.takeWhile (fun l => l ≠ "")
  let body := ((content.dropWhile (fun l => l ≠ "")).drop 1).filter (fun l => l ≠ "")
  match loadHeaderPose hdr with
  | none => none
  | some (ti, si, fi) =>
    match parseBuffer body with
    | none => none
    | some rows =>
      if 2 ≤ rows.length ∧ 15 ≤ (rows.headD []).length ∧ eqLen rows = true then
        let rr := rowsToR rows
        some (loadKneeAngles ti si rr, loadAnkleAngles si fi rr)
      else none

/-- A float formatter used for concrete round-trip checks: it writes
the reals 1 and 0 as the exact decimal texts 1 and 0 (and is not used
on other values). It stands in for the exact shortest-repr formatting
of Python, which round-trips every float through float(). -/
def serOneZero : ℝ → String := fun x => if x = 1 then "1" else "0"

lemma Quat.norm_nonneg (q : Quat) : 0 ≤ q.norm :=
  Real.sqrt_nonneg _

lemma Quat.abs_w_le_norm (q : Quat) : |q.w| ≤ q.norm := by
  rw [Quat.norm, ← Real.sqrt_sq_eq_abs]
  apply Real.sqrt_le_sqrt
  nlinarith [sq_nonneg q.x, sq_nonneg q.y, sq_nonneg q.z]

lemma Real.arccos_of_one_le' {x : ℝ} (h : 1 ≤ x) : Real.arccos x = 0 := by
  rw [Real.arccos, Real.arcsin_of_one_le h]
  ring

lemma Real.arccos_of_le_neg_one' {x : ℝ} (h : x ≤ -1) : Real.arccos x = Real.pi := by
  rw [Real.arccos, Real.arcsin_of_le_neg_one h]
  ring

/-- C6: Quaternion.angle agrees with twice the inverse cosine of the
scalar part clamped to the interval from -1 to 1; for every quaternion
of nonzero norm the angle of its normalization lies between 0 and two
pi; and the angle of the identity quaternion is 0. -/
theorem c6_rotation_angle_clamped_and_bounded :
    (∀ q : Quat, Quat.angle q = 2 * Real.arccos (npClip q.w (-1) 1)) ∧
    (∀ q : Quat, Quat.norm q ≠ 0 →
      0 ≤ Quat.angle (Quat.normalize q) ∧
      Quat.angle (Quat.normalize q) ≤ 2 * Real.pi) ∧
    Quat.angle Quat.one = 0 := by
  refine ⟨fun q => ?_, fun q _ => ?_, ?_⟩
  · unfold Quat.angle npClip
    rcases le_total q.w (-1) with h | h
    · rw [max_eq_right h, min_eq_left (by norm_num), Real.arccos_neg_one,
        Real.arccos_of_le_neg_one' h]
    · rcases le_total q.w 1 with h1 | h1
      · rw [max_eq_left h, min_eq_left h1]
      · rw [min_eq_right (le_trans h1 (le_max_left _ _)),
          Real.arccos_one, Real.arccos_of_one_le' h1]
  · constructor
    · exact mul_nonneg (by norm_num) (Real.arccos_nonneg _)
    · have := Real.arccos_le_pi ((Quat.normalize q).w)
      unfold Quat.angle
      nlinarith
  · simp [Quat.one, Quat.angle, Real.arccos_one]

/-- Witness for C6 at the concrete quaternion (2, 0, 0, 0), whose norm
is 2. -/
theorem c6_witness :
    Quat.norm ⟨2, 0, 0, 0⟩ ≠ 0 ∧
    (0 ≤ Quat.angle (Quat.normalize ⟨2, 0, 0, 0⟩) ∧
      Quat.angle (Quat.normalize ⟨2, 0, 0, 0⟩) ≤ 2 * Real.pi) := by
  have h : Quat.norm ⟨2, 0, 0, 0⟩ ≠ 0 := by
    unfold Quat.norm
    simp only
    rw [show ((2 : ℝ) ^ 2 + 0 ^ 2 + 0 ^ 2 + 0 ^ 2) = 4 by norm_num]
    positivity
  exact ⟨h, (c6_rotation_angle_clamped_and_bounded.2.1 ⟨2, 0, 0, 0⟩ h)⟩

lemma length_two_split {α : Type} {xs : List α} (h : 2 ≤ xs.length) :
    ∃ a b t, xs = a :: b :: t := by
  match xs with
  | [] => simp at h
  | [a] => simp at h
  | a :: b :: t => exact ⟨a, b, t, rfl⟩

lemma mapOpt_length {α β : Type} {f : α → Option β} :
    ∀ {ls : List α} {rs : List β}, mapOpt f ls = some rs → rs.length = ls.length := by
  intro ls
  induction ls with
  | nil => intro rs h; simp [mapOpt] at h; simp [← h]
  | cons a as ih =>
    intro rs h
    simp only [mapOpt] at h
    cases hfa : f a with
    | none => rw [hfa] at h; simp at h
    | some b =>
      rw [hfa] at h
      cases hrec : mapOpt f as with
      | none => rw [hrec] at h; simp at h
      | some bs =>
        rw [hrec] at h
        simp at h
        simp [← h, ih hrec]

lemma mapOpt_some_of_forall {α β : Type} {f : α → Option β} {p : β → Prop} :
    ∀ {ls : List α}, (∀ l ∈ ls, ∃ r, f l = some r ∧ p r) →
    ∃ rs, mapOpt f ls = some rs ∧ rs.length = ls.length ∧ ∀ r ∈ rs, p r := by
  intro ls
  induction ls with
  | nil => intro _; exact ⟨[], rfl, rfl, by simp⟩
  | cons a as ih =>
    intro h
    obtain ⟨r, hr, hpr⟩ := h a (by simp)
    obtain ⟨rs, hrs, hlen, hall⟩ := ih (fun l hl => h l (by simp [hl]))
    refine ⟨r :: rs, ?_, by simp [hlen], ?_⟩
    · simp [mapOpt, hr, hrs]
    · intro x hx
      rcases List.mem_cons.mp hx with h1 | h2
      · exact h1 ▸ hpr
      · exact hall _ h2

lemma eqLen_of_all {rows : List (List ℚ)} {n : ℕ} (h : ∀ r ∈ rows, r.length = n) :
    eqLen rows = true := by
  cases rows with
  | nil => rfl
  | cons r rs =>
    simp only [eqLen, List.all_eq_true]
    intro q hq
    rw [beq_iff_eq, h q (by simp [hq]), h r (by simp)]

lemma parseRecord_ne_empty {l : String} {r : List ℚ} (h : parseRecord l = some r) :
    l ≠ "" := by
  intro he
  rw [he, show parseRecord "" = none from by decide] at h
  cases h

lemma parseRecord_split_length {l : String} {r : List ℚ} (h : parseRecord l = some r) :
    (splitF ',' l).length = r.length :=
  (mapOpt_length h).symm

lemma wfRecord_spec {l : String} (h : wfRecord l = true) :
    lineCode l ∉ controlCodes ∧ ∃ r, parseRecord l = some r ∧ r.length = 15 := by
  unfold wfRecord at h
  rw [Bool.and_eq_true, decide_eq_true_iff] at h
  refine ⟨h.1, ?_⟩
  rcases hp : parseRecord l with _ | r
  · rw [hp] at h; simp at h
  · rw [hp] at h
    simp only [beq_iff_eq] at h
    exact ⟨r, rfl, h.2⟩

lemma wfRecord_hasPayload {l : String} (h : wfRecord l = true) :
    hasPayload l = true := by
  obtain ⟨-, r, hr, hlen⟩ := wfRecord_spec h
  rw [hasPayload, decide_eq_true_iff, parseRecord_split_length hr, hlen]
  norm_num

lemma hasPayload_ne_empty {l : String} (h : hasPayload l = true) : l ≠ "" := by
  intro he
  rw [he] at h
  revert h
  decide

lemma lineCode_of_split {l : String} {a b : String} {t : List String}
    (h : splitF ',' l = a :: b :: t) : lineCode l = a := by
  rw [lineCode, h]
  rfl

lemma step_record (fstr : ℝ → String) (s : MachineState) (l : String)
    (hc : s.crashed = false) (hcol : s.collecting = true)
    (hp : hasPayload l = true) (hctl : lineCode l ∉ controlCodes) :
    step fstr s l =
      { s with data_buffer := s.data_buffer ++ [l],
               file_handler := writeLine l s.file_handler,
               events := if lineCode l = "0" then s.events
                         else s.events ++ [Event.stateChanged (lineCode l)] } := by
  have hne : l ≠ "" := hasPayload_ne_empty hp
  rw [hasPayload, decide_eq_true_iff] at hp
  obtain ⟨a, b, t, hsplit⟩ := length_two_split hp
  have hcode := lineCode_of_split hsplit
  rw [hcode] at hctl
  have h2 : a ≠ "102" := fun h => hctl (by simp [controlCodes, h])
  have h3 : a ≠ "103" := fun h => hctl (by simp [controlCodes, h])
  have h4 : a ≠ "104" := fun h => hctl (by simp [controlCodes, h])
  have h5 : a ≠ "105" := fun h => hctl (by simp [controlCodes, h])
  rw [step, if_neg (by rw [hc]; exact Bool.false_ne_true), if_neg hne, hsplit]
  by_cases h0 : a = "0" <;>
    simp [h0, h2, h3, h4, h5, hcol, hctl, hcode, writeLine, controlCodes]

lemma run_records (fstr : ℝ → String) :
    ∀ (ls : List String) (s : MachineState),
      s.crashed = false → s.collecting = true →
      (∀ l ∈ ls, hasPayload l = true ∧ lineCode l ∉ controlCodes) →
      run fstr s ls =
        { s with data_buffer := s.data_buffer ++ ls,
                 file_handler := { s.file_handler with
                   file := s.file_handler.file.map (fun c => c ++ ls) },
                 events := s.events ++ statusEvents ls } := by
  intro ls
  induction ls with
  | nil =>
    intro s _ _ _
    simp [run, statusEvents]
  | cons l ls ih =>
    intro s hc hcol hall
    have hstep := step_record fstr s l hc hcol (hall l (by simp)).1 (hall l (by simp)).2
    have hrun : run fstr s (l :: ls) = run fstr (step fstr s l) ls := rfl
    have hrec := ih
      { s with
          data_buffer := s.data_buffer ++ [l],
          file_handler := writeLine l s.file_handler,
          events := if lineCode l = "0" then s.events
            else s.events ++ [Event.stateChanged (lineCode l)] }
      hc hcol (fun x hx => hall x (by simp [hx]))
    rw [hrun, hstep, hrec]
    by_cases h0 : lineCode l = "0" <;>
      (simp [h0, statusEvents, writeLine, Option.map_map, Function.comp, List.filterMap_cons];
        congr 1; funext c; simp)

lemma step_104 (fstr : ℝ → String) (s : MachineState) (l : String)
    (hc : s.crashed = false) (hp : hasPayload l = true) (hcode : lineCode l = "104") :
    step fstr s l =
      { s with data_buffer := [],
               file_handler := openNewFile (headerLines fstr s) s.file_handler,
               collecting := true,
               events := s.events ++ [Event.stateChanged "104"] } := by
  have hne := hasPayload_ne_empty hp
  rw [hasPayload, decide_eq_true_iff] at hp
  obtain ⟨a, b, t, hsplit⟩ := length_two_split hp
  have hcode2 := lineCode_of_split hsplit
  rw [hcode2] at hcode
  subst hcode
  rw [step, if_neg (by rw [hc]; exact Bool.false_ne_true), if_neg hne, hsplit]
  simp [headerLines]

lemma step_103 (fstr : ℝ → String) (s : MachineState) (l : String)
    (hc : s.crashed = false) (hcol : s.collecting = true)
    (hp : hasPayload l = true) (hcode : lineCode l = "103") :
    step fstr s l =
      (let s1 := calcInitialState fstr { s with events := s.events ++ [Event.stateChanged "103"] }
       if s1.crashed = true then s1 else { s1 with collecting := false }) := by
  have hne := hasPayload_ne_empty hp
  rw [hasPayload, decide_eq_true_iff] at hp
  obtain ⟨a, b, t, hsplit⟩ := length_two_split hp
  have hcode2 := lineCode_of_split hsplit
  rw [hcode2] at hcode
  subst hcode
  rw [step, if_neg (by rw [hc]; exact Bool.false_ne_true), if_neg hne, hsplit]
  simp [hcol]

lemma step_105 (fstr : ℝ → String) (s : MachineState) (l : String)
    (hc : s.crashed = false) (hcol : s.collecting = true)
    (hp : hasPayload l = true) (hcode : lineCode l = "105") :
    step fstr s l =
      (let s1 := processData { s with events := s.events ++ [Event.stateChanged "105"] }
       if s1.crashed = true then s1
       else { s1 with collecting := false, file_handler := closeFile s1.file_handler }) := by
  have hne := hasPayload_ne_empty hp
  rw [hasPayload, decide_eq_true_iff] at hp
  obtain ⟨a, b, t, hsplit⟩ := length_two_split hp
  have hcode2 := lineCode_of_split hsplit
  rw [hcode2] at hcode
  subst hcode
  rw [step, if_neg (by rw [hc]; exact Bool.false_ne_true), if_neg hne, hsplit]
  simp [hcol]

lemma processData_empty (s : MachineState) (h : s.data_buffer = []) :
    processData s = s := by
  simp [processData, h]

lemma processData_ok (s : MachineState) (rows : List (List ℚ)) (ti si fi : Quat)
    (hb : s.data_buffer ≠ []) (hparse : parseBuffer s.data_buffer = some rows)
    (hlen : 15 ≤ (rows.headD []).length) (heq : eqLen rows = true)
    (hti : s.q_ti = some ti) (hsi : s.q_si = some si) (hfi : s.q_fi = some fi) :
    processData s =
      { s with data_buffer := [],
               events := s.events ++ [Event.dataProcessed (colTime (rowsToR rows))
                 ((rowsToR rows).map rowQuats) (colPressure (rowsToR rows))
                 (kneeAngles ti si (rowsToR rows)) (ankleAngles si fi (rowsToR rows))] } := by
  rw [List.headD_eq_head?] at hlen
  simp [processData, hb, hparse, hlen, heq, hti, hsi, hfi]

lemma processData_no_pose (s : MachineState) (rows : List (List ℚ))
    (hb : s.data_buffer ≠ []) (hparse : parseBuffer s.data_buffer = some rows)
    (hlen : 15 ≤ (rows.headD []).length) (heq : eqLen rows = true)
    (hpose : s.q_ti = none ∨ s.q_si = none ∨ s.q_fi = none) :
    processData s = { s with crashed := true } := by
  rcases hti : s.q_ti with _ | ti <;> rcases hsi : s.q_si with _ | si <;>
    rcases hfi : s.q_fi with _ | fi <;>
    simp_all [processData, hb, hparse, hlen, heq]

lemma calcInitialState_empty (fstr : ℝ → String) (s : MachineState)
    (h : s.data_buffer = []) :
    calcInitialState fstr s = s := by
  simp [calcInitialState, h]

lemma calcInitialState_ok (fstr : ℝ → String) (s : MachineState) (rows : List (List ℚ))
    (hb : s.data_buffer ≠ []) (hparse : parseBuffer s.data_buffer = some rows)
    (hlen : 14 ≤ (rows.headD []).length) (heq : eqLen rows = true) :
    calcInitialState fstr s =
      (let rr := rowsToR rows
       let s1 := { s with q_ti := some (calib_q_ti rr), q_si := some (calib_q_si rr),
                          q_fi := some (calib_q_fi rr),
                          initial_knee_angle :=
                            some (Quat.calculate_angle (calib_q_ti rr) (calib_q_si rr)),
                          initial_ankle_angle :=
                            some (Quat.calculate_angle (calib_q_si rr) (calib_q_fi rr)) }
       { s1 with file_handler := openNewFile (headerLines fstr s1) s1.file_handler,
                 events := s1.events ++
                   [Event.initialAngles (Quat.calculate_angle (calib_q_ti rr) (calib_q_si rr))
                     (Quat.calculate_angle (calib_q_si rr) (calib_q_fi rr))] }) := by
  rw [List.headD_eq_head?] at hlen
  simp [calcInitialState, hb, hparse, hlen, heq]

lemma getD_map_lemma {α β : Type} (f : α → β) (d : α) (e : β) (L : List α) (i : ℕ)
    (hi : i < L.length) : (L.map f).getD i e = f (L.getD i d) := by
  rw [List.getD_eq_getElem _ _ (by simpa using hi), List.getElem_map,
    List.getD_eq_getElem _ _ hi]

/-- C1: when a batch of parsed sensor records is processed at the end
of recording, the emitted event carries, at every index i, the knee
angle degrees(angle(mult(mult(q_shank, conj(q_si)), mult(q_ti,
conj(q_thigh))))) and the ankle angle degrees(angle(mult(mult(q_foot,
conj(q_fi)), mult(q_si, conj(q_shank))))), computed with the active
calibration pose, where mult normalizes both inputs before the
Hamilton product and conj negates only the vector part. -/
theorem c1_batch_angle_formulas (s : MachineState) (rows : List (List ℚ))
    (ti si fi : Quat) (i : ℕ)
    (hb : s.data_buffer ≠ []) (hparse : parseBuffer s.data_buffer = some rows)
    (hlen : 15 ≤ (rows.headD []).length) (heq : eqLen rows = true)
    (hti : s.q_ti = some ti) (hsi : s.q_si = some si) (hfi : s.q_fi = some fi)
    (hi : i < rows.length) :
    processData s =
      { s with data_buffer := [],
               events := s.events ++ [Event.dataProcessed (colTime (rowsToR rows))
                 ((rowsToR rows).map rowQuats) (colPressure (rowsToR rows))
                 (kneeAngles ti si (rowsToR rows)) (ankleAngles si fi (rowsToR rows))] } ∧
    (kneeAngles ti si (rowsToR rows)).getD i 0 =
      degrees (Quat.angle (Quat.mult
        (Quat.mult (quatAt ((rowsToR rows).getD i []) 6) (Quat.conj si))
        (Quat.mult ti (Quat.conj (quatAt ((rowsToR rows).getD i []) 2))))) ∧
    (ankleAngles si fi (rowsToR rows)).getD i 0 =
      degrees (Quat.angle (Quat.mult
        (Quat.mult (quatAt ((rowsToR rows).getD i []) 10) (Quat.conj fi))
        (Quat.mult si (Quat.conj (quatAt ((rowsToR rows).getD i []) 6))))) := by
  have hlenR : i < (rowsToR rows).length := by simpa [rowsToR] using hi
  refine ⟨processData_ok s rows ti si fi hb hparse hlen heq hti hsi hfi, ?_, ?_⟩
  · rw [kneeAngles, qKList, List.map_map,
      getD_map_lemma _ [] 0 _ _ hlenR]
    simp [Function.comp, kneeQuat]
  · rw [ankleAngles, qAList, List.map_map,
      getD_map_lemma _ [] 0 _ _ hlenR]
    simp [Function.comp, ankleQuat]

/-- Witness for C1 at a one-record buffer with the identity
calibration pose. -/
theorem c1_witness :
    parseBuffer ["0,0,1,0,0,0,1,0,0,0,1,0,0,0,0"] =
      some [[0, 0, 1, 0, 0, 0, 1, 0, 0, 0, 1, 0, 0, 0, 0]] ∧
    ((kneeAngles Quat.one Quat.one
        (rowsToR [[0, 0, 1, 0, 0, 0, 1, 0, 0, 0, 1, 0, 0, 0, 0]])).getD 0 0 =
      degrees (Quat.angle (Quat.mult
        (Quat.mult (quatAt ((rowsToR [[0, 0, 1, 0, 0, 0, 1, 0, 0, 0, 1, 0, 0, 0, 0]]).getD 0 []) 6)
          (Quat.conj Quat.one))
        (Quat.mult Quat.one
          (Quat.conj (quatAt ((rowsToR [[0, 0, 1, 0, 0, 0, 1, 0, 0, 0, 1, 0, 0, 0, 0]]).getD 0 []) 2)))))) :=
  ⟨by decide,
    (c1_batch_angle_formulas
      { initState with data_buffer := ["0,0,1,0,0,0,1,0,0,0,1,0,0,0,0"],
                       q_ti := some Quat.one, q_si := some Quat.one, q_fi := some Quat.one }
      [[0, 0, 1, 0, 0, 0, 1, 0, 0, 0, 1, 0, 0, 0, 0]]
      Quat.one Quat.one Quat.one 0
      (by simp) (by decide) (by decide) (by decide) rfl rfl rfl (by decide)).2.1⟩

lemma rowsToR_calib_row :
    rowsToR [[0, 0, 1, 0, 0, 0, 1, 0, 0, 0, 1, 0, 0, 0, 0]] =
      [[0, 0, 1, 0, 0, 0, 1, 0, 0, 0, 1, 0, 0, 0, 0]] := by
  simp [rowsToR]

lemma calib_q_ti_concrete :
    calib_q_ti [[(0 : ℝ), 0, 1, 0, 0, 0, 1, 0, 0, 0, 1, 0, 0, 0, 0]] =
      ⟨(Real.sqrt 3)⁻¹, 0, 0, 0⟩ := by
  have hq : rowQuats [(0 : ℝ), 0, 1, 0, 0, 0, 1, 0, 0, 0, 1, 0, 0, 0, 0] =
      [1, 0, 0, 0, 1, 0, 0, 0, 1, 0, 0, 0] := by
    simp [rowQuats]
  have hn : vnormL [(1 : ℝ), 0, 0, 0, 1, 0, 0, 0, 1, 0, 0, 0] = Real.sqrt 3 := by
    simp [vnormL]
    norm_num
  unfold calib_q_ti avgCalibQ
  rw [List.map_cons, List.map_nil, hq, hn]
  unfold meanCols quatOfList
  norm_num [List.range_succ, one_div]

lemma specSegMean_concrete :
    specSegMean [[(0 : ℝ), 0, 1, 0, 0, 0, 1, 0, 0, 0, 1, 0, 0, 0, 0]] 2 = ⟨1, 0, 0, 0⟩ := by
  have hq : ((([(0 : ℝ), 0, 1, 0, 0, 0, 1, 0, 0, 0, 1, 0, 0, 0, 0]).drop 2).take 4) =
      [1, 0, 0, 0] := by simp
  have hn : vnormL [(1 : ℝ), 0, 0, 0] = 1 := by
    simp [vnormL]
  unfold specSegMean
  rw [List.map_cons, List.map_nil, hq, hn]
  unfold meanCols quatOfList
  norm_num [List.range_succ]

lemma sqrt_three_inv_ne_one : ((Real.sqrt 3)⁻¹ : ℝ) ≠ 1 := by
  rw [ne_eq, inv_eq_one, Real.sqrt_eq_one]
  norm_num

/-- C2 counterexample: on the valid one-sample calibration buffer
whose three segment quaternions are each (1, 0, 0, 0), the machine
stores q_ti = (1/sqrt 3, 0, 0, 0), because the source normalizes each
twelve-component row by its joint norm, while the per-segment
normalization the claim describes yields (1, 0, 0, 0); the two
disagree. -/
theorem c2_counterexample :
    (calcInitialState (fun _ => "")
        { initState with data_buffer := ["0,0,1,0,0,0,1,0,0,0,1,0,0,0,0"] }).q_ti =
      some ⟨(Real.sqrt 3)⁻¹, 0, 0, 0⟩ ∧
    specSegMean (rowsToR [[0, 0, 1, 0, 0, 0, 1, 0, 0, 0, 1, 0, 0, 0, 0]]) 2 = ⟨1, 0, 0, 0⟩ ∧
    ((Real.sqrt 3)⁻¹ : ℝ) ≠ 1 := by
  refine ⟨?_, ?_, sqrt_three_inv_ne_one⟩
  · rw [calcInitialState_ok _ _ [[0, 0, 1, 0, 0, 0, 1, 0, 0, 0, 1, 0, 0, 0, 0]]
      (by simp) (by decide) (by decide) (by decide)]
    simp only [rowsToR_calib_row, calib_q_ti_concrete]
  · rw [rowsToR_calib_row, specSegMean_concrete]

/-- C2 (amended): for every non-empty calibration buffer of valid
samples, the computation divides each sample row of twelve quaternion
components by the joint Euclidean norm of the whole row (not each
segment quaternion by its own norm), averages the normalized rows
componentwise, slices the mean into q_ti, q_si, q_fi, and sets the
initial knee and ankle angles to the angular separations of (q_ti,
q_si) and (q_si, q_fi), where the angular separation of the source
equals the clamp-of-absolute-normalized-dot form of the spec. -/
theorem c2_amended (fstr : ℝ → String) (s : MachineState) (rows : List (List ℚ))
    (hb : s.data_buffer ≠ []) (hparse : parseBuffer s.data_buffer = some rows)
    (hlen : 14 ≤ (rows.headD []).length) (heq : eqLen rows = true) :
    ((calcInitialState fstr s).q_ti = some (calib_q_ti (rowsToR rows)) ∧
     (calcInitialState fstr s).q_si = some (calib_q_si (rowsToR rows)) ∧
     (calcInitialState fstr s).q_fi = some (calib_q_fi (rowsToR rows)) ∧
     (calcInitialState fstr s).initial_knee_angle =
       some (Quat.calculate_angle (calib_q_ti (rowsToR rows)) (calib_q_si (rowsToR rows))) ∧
     (calcInitialState fstr s).initial_ankle_angle =
       some (Quat.calculate_angle (calib_q_si (rowsToR rows)) (calib_q_fi (rowsToR rows)))) ∧
    (∀ q1 q2 : Quat, Quat.calculate_angle q1 q2 = specAngularSep q1 q2) := by
  constructor
  · rw [calcInitialState_ok fstr s rows hb hparse hlen heq]
    simp
  · intro q1 q2
    unfold Quat.calculate_angle specAngularSep
    rw [abs_div, abs_of_nonneg (mul_nonneg (Quat.norm_nonneg q1) (Quat.norm_nonneg q2))]

/-- Witness for C2 (amended) at the concrete one-sample buffer. -/
theorem c2_witness :
    parseBuffer ["0,0,1,0,0,0,1,0,0,0,1,0,0,0,0"] =
      some [[0, 0, 1, 0, 0, 0, 1, 0, 0, 0, 1, 0, 0, 0, 0]] ∧
    (calcInitialState (fun _ => "")
        { initState with data_buffer := ["0,0,1,0,0,0,1,0,0,0,1,0,0,0,0"] }).q_ti =
      some (calib_q_ti (rowsToR [[0, 0, 1, 0, 0, 0, 1, 0, 0, 0, 1, 0, 0, 0, 0]])) :=
  ⟨by decide,
    (c2_amended (fun _ => "")
      { initState with data_buffer := ["0,0,1,0,0,0,1,0,0,0,1,0,0,0,0"] }
      [[0, 0, 1, 0, 0, 0, 1, 0, 0, 0, 1, 0, 0, 0, 0]]
      (by simp) (by decide) (by decide) (by decide)).1.1⟩

/-- C4 (amended): a line whose leading code is 104 with a malformed
payload is not skipped: the payload of a control line is never parsed,
so the line acts as a normal begin-recording code. During Recording it
empties the acquisition buffer, leaves the open file as it is (the
open call is a no-op), keeps collecting, and does not crash. Only
decode failures of the transport layer are skipped silently. -/
theorem c4_amended (fstr : ℝ → String) (s : MachineState) (l : String)
    (hc : s.crashed = false) (hcol : s.collecting = true)
    (hopen : s.file_handler.file.isSome = true)
    (hp : hasPayload l = true) (hcode : lineCode l = "104") :
    step fstr s l =
      { s with data_buffer := [],
               events := s.events ++ [Event.stateChanged "104"] } ∧
    (step fstr s l).crashed = false := by
  have h := step_104 fstr s l hc hp hcode
  rw [h]
  constructor
  · simp [openNewFile, hopen, hcol]
  · simp [hc]

/-- Witness for C4 (amended) at a concrete recording state. -/
theorem c4_witness :
    hasPayload "104,abc" = true ∧
    (step (fun _ => "")
        { initState with collecting := true,
                         data_buffer := ["0,0,1,0,0,0,1,0,0,0,1,0,0,0,0"],
                         file_handler := { session_index := 2, file := some ["h", ""], saved := [] } }
        "104,abc").crashed = false :=
  ⟨by decide,
    (c4_amended (fun _ => "")
      { initState with collecting := true,
                       data_buffer := ["0,0,1,0,0,0,1,0,0,0,1,0,0,0,0"],
                       file_handler := { session_index := 2, file := some ["h", ""], saved := [] } }
      "104,abc" rfl rfl rfl (by decide) (by decide)).2⟩

/-- C4 counterexample: in a Recording state whose buffer holds one
record, processing the malformed line 104,abc changes the element
count of the acquisition buffer from one to zero, contradicting the
claim that the buffer count is left unchanged. -/
theorem c4_counterexample :
    ¬ ((step (fun _ => "")
          { initState with collecting := true,
                           data_buffer := ["0,0,1,0,0,0,1,0,0,0,1,0,0,0,0"],
                           file_handler := { session_index := 2, file := some ["h", ""], saved := [] } }
          "104,abc").data_buffer.length =
        (["0,0,1,0,0,0,1,0,0,0,1,0,0,0,0"] : List String).length) := by
  decide

/-- C8 (amended): a 103 line arriving while collecting with an empty
calibration buffer skips the computation silently: no error value is
produced, no event beyond the status event is emitted, the calibration
pose and the file handler are untouched, and only the collecting flag
falls. A nonempty buffer all of whose samples are invalid instead
raises, halting the machine. -/
theorem c8_amended (fstr : ℝ → String) (s : MachineState) (l : String)
    (hc : s.crashed = false) (hcol : s.collecting = true)
    (hempty : s.data_buffer = [])
    (hp : hasPayload l = true) (hcode : lineCode l = "103") :
    step fstr s l =
      { s with collecting := false,
               events := s.events ++ [Event.stateChanged "103"] } := by
  rw [step_103 fstr s l hc hcol hp hcode]
  rw [calcInitialState_empty fstr _ (by simpa using hempty)]
  simp [hc]

/-- Witness for C8 (amended) at a concrete empty-buffer state. -/
theorem c8_witness :
    hasPayload "103,0" = true ∧
    step (fun _ => "") { initState with collecting := true } "103,0" =
      { initState with collecting := false,
                       events := [Event.stateChanged "103"] } :=
  ⟨by decide,
    by
      have h := c8_amended (fun _ => "") { initState with collecting := true } "103,0"
        rfl rfl rfl (by decide) (by decide)
      simpa [initState] using h⟩

/-- C8 counterexample: invoking the calibration computation on a
buffer holding one line with no valid sample (the non-numeric line
0,abc) does not fail with a recoverable error and does not skip: the
parse raises, the machine crashes. -/
theorem c8_counterexample :
    (step (fun _ => "")
        { initState with collecting := true, data_buffer := ["0,abc"] }
        "103,0").crashed = true := by
  decide

/-- C5 (amended): while collecting, a line whose code is not a control
code is appended to the acquisition buffer and, whenever a session
file is open, also appended verbatim to it; nothing reaches the disk
list of closed files. An open file is guaranteed while Recording, but
can equally be present while Calibrating, because a 103 line opens the
session file before any 104 arrives, so such writes are not exclusive
to the Recording phase. -/
theorem c5_amended (fstr : ℝ → String) (s : MachineState) (l : String)
    (hc : s.crashed = false) (hcol : s.collecting = true)
    (hp : hasPayload l = true) (hctl : lineCode l ∉ controlCodes) :
    (step fstr s l).data_buffer = s.data_buffer ++ [l] ∧
    (step fstr s l).file_handler.file = s.file_handler.file.map (fun c => c ++ [l]) ∧
    (step fstr s l).file_handler.saved = s.file_handler.saved := by
  rw [step_record fstr s l hc hcol hp hctl]
  simp [writeLine]

/-- Witness for C5 (amended) at a concrete collecting state with an
open file. -/
theorem c5_witness :
    hasPayload "0,0,1,0,0,0,1,0,0,0,1,0,0,0,0" = true ∧
    (step (fun _ => "")
        { initState with collecting := true,
                         file_handler := { session_index := 2, file := some ["h", ""], saved := [] } }
        "0,0,1,0,0,0,1,0,0,0,1,0,0,0,0").file_handler.file =
      (some ["h", ""] : Option (List String)).map
        (fun c => c ++ ["0,0,1,0,0,0,1,0,0,0,1,0,0,0,0"]) :=
  ⟨by decide,
    (c5_amended (fun _ => "")
      { initState with collecting := true,
                       file_handler := { session_index := 2, file := some ["h", ""], saved := [] } }
      "0,0,1,0,0,0,1,0,0,0,1,0,0,0,0" rfl rfl (by decide) (by decide)).2.1⟩

/-- C5 counterexample: after the sequence 102, record, 103 (which
computes a pose and already opens the session file), a second 102 puts
the machine back into the Calibrating phase with the file still open;
the next record line is then written to that open session file while
Calibrating, so writes are not exclusive to the Recording phase. -/
theorem c5_counterexample :
    (run (fun _ => "x") initState
        ["102,0", "0,0,1,0,0,0,1,0,0,0,1,0,0,0,0", "103,0", "102,0",
         "0,0,1,0,0,0,1,0,0,0,1,0,0,0,0"]).collecting = true ∧
    (run (fun _ => "x") initState
        ["102,0", "0,0,1,0,0,0,1,0,0,0,1,0,0,0,0", "103,0", "102,0",
         "0,0,1,0,0,0,1,0,0,0,1,0,0,0,0"]).file_handler.file =
      some ["q_ti=x,x,x,x", "q_si=x,x,x,x", "q_fi=x,x,x,x",
            "initial_knee_angle=x", "initial_ankle_angle=x", "",
            "0,0,1,0,0,0,1,0,0,0,1,0,0,0,0"] := by
  decide

/-- C9: a 104 line processed before any calibration ever completed
does not fail: a session file is opened whose header serializes every
pose field and both initial angles as the text None, and recording
proceeds normally, appending every following record line to the buffer
and to that file, without crashing. -/
theorem c9_uncalibrated_recording (fstr : ℝ → String) (s : MachineState)
    (l : String) (body : List String)
    (hc : s.crashed = false) (hfile : s.file_handler.file = none)
    (hti : s.q_ti = none) (hsi : s.q_si = none) (hfi : s.q_fi = none)
    (hknee : s.initial_knee_angle = none) (hankle : s.initial_ankle_angle = none)
    (hp : hasPayload l = true) (hcode : lineCode l = "104")
    (hbody : ∀ x ∈ body, hasPayload x = true ∧ lineCode x ∉ controlCodes) :
    (run fstr s (l :: body)).file_handler.file =
      some (["q_ti=None", "q_si=None", "q_fi=None", "initial_knee_angle=None",
             "initial_ankle_angle=None", ""] ++ body) ∧
    (run fstr s (l :: body)).collecting = true ∧
    (run fstr s (l :: body)).crashed = false ∧
    (run fstr s (l :: body)).file_handler.saved = s.file_handler.saved ∧
    (run fstr s (l :: body)).data_buffer = body := by
  have hrun : run fstr s (l :: body) = run fstr (step fstr s l) body := rfl
  have hhdr : headerLines fstr s =
      ["q_ti=None", "q_si=None", "q_fi=None", "initial_knee_angle=None",
       "initial_ankle_angle=None"] := by
    simp [headerLines, serQuat, serVal, hti, hsi, hfi, hknee, hankle]
  have hstep := step_104 fstr s l hc hp hcode
  rw [hhdr] at hstep
  have hopen : openNewFile
      ["q_ti=None", "q_si=None", "q_fi=None", "initial_knee_angle=None",
       "initial_ankle_angle=None"] s.file_handler =
      { session_index := s.file_handler.session_index + 1,
        file := some ["q_ti=None", "q_si=None", "q_fi=None", "initial_knee_angle=None",
                      "initial_ankle_angle=None", ""],
        saved := s.file_handler.saved } := by
    simp [openNewFile, hfile]
  rw [hopen] at hstep
  have hrec := run_records fstr body
    { s with
        data_buffer := [],
        file_handler :=
          { session_index := s.file_handler.session_index + 1,
            file := some ["q_ti=None", "q_si=None", "q_fi=None",
                          "initial_knee_angle=None", "initial_ankle_angle=None", ""],
            saved := s.file_handler.saved },
        collecting := true,
        events := s.events ++ [Event.stateChanged "104"] }
    hc rfl hbody
  rw [hrun, hstep, hrec]
  simp [hc]

/-- Witness for C9 from the fresh initial state. -/
theorem c9_witness :
    (∀ x ∈ ["0,0,1,0,0,0,1,0,0,0,1,0,0,0,0"],
      hasPayload x = true ∧ lineCode x ∉ controlCodes) ∧
    (run (fun _ => "") initState ("104,0" :: ["0,0,1,0,0,0,1,0,0,0,1,0,0,0,0"])).file_handler.file =
      some (["q_ti=None", "q_si=None", "q_fi=None", "initial_knee_angle=None",
             "initial_ankle_angle=None", ""] ++ ["0,0,1,0,0,0,1,0,0,0,1,0,0,0,0"]) :=
  ⟨by decide,
    (c9_uncalibrated_recording (fun _ => "") initState "104,0"
      ["0,0,1,0,0,0,1,0,0,0,1,0,0,0,0"]
      rfl rfl rfl rfl rfl rfl rfl (by decide) (by decide) (by decide)).1⟩

/-- C10: the machine distinguishes acquisition phases only through the
collecting flag. A 103 line received while Recording (collecting with
an open session file) recomputes the calibration pose from the buffer
accumulated so far, emits the calibration event, and ends collection
while the file stays open and the buffer is kept; symmetrically, a 105
line received while Calibrating (collecting, with the pose available)
runs batch processing over the calibration buffer, emits the
computed-series event, clears the buffer and ends collection. -/
theorem c10_single_flag_symmetry :
    (∀ (fstr : ℝ → String) (s : MachineState) (l : String) (rows : List (List ℚ))
        (f : List String),
      s.crashed = false → s.collecting = true → s.file_handler.file = some f →
      hasPayload l = true → lineCode l = "103" →
      s.data_buffer ≠ [] → parseBuffer s.data_buffer = some rows →
      14 ≤ (rows.headD []).length → eqLen rows = true →
      step fstr s l =
        { s with q_ti := some (calib_q_ti (rowsToR rows)),
                 q_si := some (calib_q_si (rowsToR rows)),
                 q_fi := some (calib_q_fi (rowsToR rows)),
                 initial_knee_angle := some (Quat.calculate_angle
                   (calib_q_ti (rowsToR rows)) (calib_q_si (rowsToR rows))),
                 initial_ankle_angle := some (Quat.calculate_angle
                   (calib_q_si (rowsToR rows)) (calib_q_fi (rowsToR rows))),
                 collecting := false,
                 events := s.events ++ [Event.stateChanged "103",
                   Event.initialAngles
                     (Quat.calculate_angle (calib_q_ti (rowsToR rows)) (calib_q_si (rowsToR rows)))
                     (Quat.calculate_angle (calib_q_si (rowsToR rows)) (calib_q_fi (rowsToR rows)))] }) ∧
    (∀ (fstr : ℝ → String) (s : MachineState) (l : String) (rows : List (List ℚ))
        (ti si fi : Quat),
      s.crashed = false → s.collecting = true →
      hasPayload l = true → lineCode l = "105" →
      s.data_buffer ≠ [] → parseBuffer s.data_buffer = some rows →
      15 ≤ (rows.headD []).length → eqLen rows = true →
      s.q_ti = some ti → s.q_si = some si → s.q_fi = some fi →
      step fstr s l =
        { s with data_buffer := [],
                 collecting := false,
                 file_handler := closeFile s.file_handler,
                 events := s.events ++ [Event.stateChanged "105",
                   Event.dataProcessed (colTime (rowsToR rows)) ((rowsToR rows).map rowQuats)
                     (colPressure (rowsToR rows)) (kneeAngles ti si (rowsToR rows))
                     (ankleAngles si fi (rowsToR rows))] }) := by
  constructor
  · intro fstr s l rows f hc hcol hfile hp hcode hb hparse hlen heq
    rw [step_103 fstr s l hc hcol hp hcode]
    have hcalc := calcInitialState_ok fstr
      { s with events := s.events ++ [Event.stateChanged "103"] } rows hb hparse hlen heq
    rw [hcalc]
    simp [openNewFile, hfile, hc]
  · intro fstr s l rows ti si fi hc hcol hp hcode hb hparse hlen heq hti hsi hfi
    rw [step_105 fstr s l hc hcol hp hcode]
    have hproc := processData_ok
      { s with events := s.events ++ [Event.stateChanged "105"] } rows ti si fi
      hb hparse hlen heq hti hsi hfi
    rw [hproc]
    simp [hc]

/-- Witness for C10: both directions at concrete one-record
buffers. -/
theorem c10_witness :
    parseBuffer ["0,0,1,0,0,0,1,0,0,0,1,0,0,0,0"] =
      some [[0, 0, 1, 0, 0, 0, 1, 0, 0, 0, 1, 0, 0, 0, 0]] ∧
    (step (fun _ => "")
        { initState with collecting := true,
                         data_buffer := ["0,0,1,0,0,0,1,0,0,0,1,0,0,0,0"],
                         file_handler := { session_index := 2, file := some ["h", ""], saved := [] } }
        "103,0").collecting = false ∧
    (step (fun _ => "")
        { initState with collecting := true,
                         data_buffer := ["0,0,1,0,0,0,1,0,0,0,1,0,0,0,0"],
                         q_ti := some Quat.one, q_si := some Quat.one, q_fi := some Quat.one }
        "105,0").data_buffer = [] := by
  refine ⟨by decide, ?_, ?_⟩
  · have h := c10_single_flag_symmetry.1 (fun _ => "")
      { initState with collecting := true,
                       data_buffer := ["0,0,1,0,0,0,1,0,0,0,1,0,0,0,0"],
                       file_handler := { session_index := 2, file := some ["h", ""], saved := [] } }
      "103,0" [[0, 0, 1, 0, 0, 0, 1, 0, 0, 0, 1, 0, 0, 0, 0]] ["h", ""]
      rfl rfl rfl (by decide) (by decide) (by simp) (by decide) (by decide) (by decide)
    rw [h]
  · have h := c10_single_flag_symmetry.2 (fun _ => "")
      { initState with collecting := true,
                       data_buffer := ["0,0,1,0,0,0,1,0,0,0,1,0,0,0,0"],
                       q_ti := some Quat.one, q_si := some Quat.one, q_fi := some Quat.one }
      "105,0" [[0, 0, 1, 0, 0, 0, 1, 0, 0, 0, 1, 0, 0, 0, 0]] Quat.one Quat.one Quat.one
      rfl rfl (by decide) (by decide) (by simp) (by decide) (by decide) (by decide) rfl rfl rfl
    rw [h]

lemma session_open_and_body (fstr : ℝ → String) (s : MachineState) (l1 : String)
    (body : List String)
    (hc : s.crashed = false) (hfile : s.file_handler.file = none)
    (hp1 : hasPayload l1 = true) (hcode1 : lineCode l1 = "104")
    (hbody : ∀ x ∈ body, wfRecord x = true) :
    run fstr s (l1 :: body) =
      { s with data_buffer := body,
               file_handler :=
                 { session_index := s.file_handler.session_index + 1,
                   file := some (headerLines fstr s ++ [""] ++ body),
                   saved := s.file_handler.saved },
               collecting := true,
               events := s.events ++ [Event.stateChanged "104"] ++ statusEvents body } := by
  have hrun : run fstr s (l1 :: body) = run fstr (step fstr s l1) body := rfl
  have hstep := step_104 fstr s l1 hc hp1 hcode1
  have hopen : openNewFile (headerLines fstr s) s.file_handler =
      { session_index := s.file_handler.session_index + 1,
        file := some (headerLines fstr s ++ [""]),
        saved := s.file_handler.saved } := by
    simp [openNewFile, hfile]
  rw [hopen] at hstep
  have hrec := run_records fstr body
    { s with
        data_buffer := [],
        file_handler :=
          { session_index := s.file_handler.session_index + 1,
            file := some (headerLines fstr s ++ [""]),
            saved := s.file_handler.saved },
        collecting := true,
        events := s.events ++ [Event.stateChanged "104"] }
    hc rfl (fun x hx => ⟨wfRecord_hasPayload (hbody x hx), (wfRecord_spec (hbody x hx)).1⟩)
  rw [hrun, hstep, hrec]
  simp

lemma headD_len_of_all {rows : List (List ℚ)} (hne : rows ≠ [])
    (h : ∀ r ∈ rows, r.length = 15) : 15 ≤ (rows.headD []).length := by
  cases rows with
  | nil => exact absurd rfl hne
  | cons r rs => exact (h r (by simp)).ge

/-- FileHandler.close_file is idempotent. -/
lemma closeFile_idem (fh : FileHandler) : closeFile (closeFile fh) = closeFile fh := by
  rcases fh with ⟨i, f, sv⟩
  cases f <;> simp [closeFile]

lemma close_after_105 (fstr : ℝ → String) (s2 : MachineState) (l2 : String)
    (hc : s2.crashed = false) (hcol : s2.collecting = true)
    (hp2 : hasPayload l2 = true) (hcode2 : lineCode l2 = "105")
    (hbody : ∀ x ∈ s2.data_buffer, wfRecord x = true) :
    closeFile (step fstr s2 l2).file_handler = closeFile s2.file_handler := by
  rw [step_105 fstr s2 l2 hc hcol hp2 hcode2]
  by_cases hbe : s2.data_buffer = []
  · have hP := processData_empty
      { s2 with events := s2.events ++ [Event.stateChanged "105"] } (by simpa using hbe)
    rw [hP]
    simp [hc, closeFile_idem]
  · obtain ⟨rows, hparse, hlenEq, hall15⟩ :=
      mapOpt_some_of_forall (fun l hl => (wfRecord_spec (hbody l hl)).2)
    have hrne : rows ≠ [] := by
      intro h
      rw [h] at hlenEq
      exact hbe (List.length_eq_zero.mp hlenEq.symm)
    have hhead := headD_len_of_all hrne hall15
    have heq := eqLen_of_all hall15
    by_cases hpose : s2.q_ti = none ∨ s2.q_si = none ∨ s2.q_fi = none
    · have hP := processData_no_pose
        { s2 with events := s2.events ++ [Event.stateChanged "105"] } rows
        (by simpa using hbe) hparse hhead heq hpose
      rw [hP]
      simp
    · push_neg at hpose
      obtain ⟨ti, hti⟩ := Option.ne_none_iff_exists'.mp hpose.1
      obtain ⟨si, hsi⟩ := Option.ne_none_iff_exists'.mp hpose.2.1
      obtain ⟨fi, hfi⟩ := Option.ne_none_iff_exists'.mp hpose.2.2
      have hP := processData_ok
        { s2 with events := s2.events ++ [Event.stateChanged "105"] } rows ti si fi
        (by simpa using hbe) hparse hhead heq hti hsi hfi
      rw [hP]
      simp [hc, closeFile_idem]

/-- C3: a line with code 104, then N well-formed sensor-record lines
(codes outside the control set), then a line with code 105, processed
from an idle state with no open file, opens exactly one session file
and closes it again: afterwards no file is open, the session index has
advanced exactly once, and the file left on disk holds the key=value
header lines, the blank separator line, and then exactly the N body
lines verbatim. -/
theorem c3_session_file (fstr : ℝ → String) (s : MachineState)
    (l1 : String) (body : List String) (l2 : String)
    (hc : s.crashed = false) (hfile : s.file_handler.file = none)
    (hp1 : hasPayload l1 = true) (hcode1 : lineCode l1 = "104")
    (hp2 : hasPayload l2 = true) (hcode2 : lineCode l2 = "105")
    (hbody : ∀ x ∈ body, wfRecord x = true) :
    (runFinally fstr s (l1 :: (body ++ [l2]))).file_handler =
      { session_index := s.file_handler.session_index + 1,
        file := none,
        saved := s.file_handler.saved ++ [headerLines fstr s ++ [""] ++ body] } := by
  have hA := session_open_and_body fstr s l1 body hc hfile hp1 hcode1 hbody
  have hrun : run fstr s (l1 :: (body ++ [l2])) =
      step fstr (run fstr s (l1 :: body)) l2 := by
    rw [run, show l1 :: (body ++ [l2]) = (l1 :: body) ++ [l2] from rfl,
      List.foldl_append]
    rfl
  have hproj : (runFinally fstr s (l1 :: (body ++ [l2]))).file_handler =
      closeFile (run fstr s (l1 :: (body ++ [l2]))).file_handler := rfl
  have hcl := close_after_105 fstr
    { s with collecting := true, data_buffer := body,
             file_handler :=
               { session_index := s.file_handler.session_index + 1,
                 file := some (headerLines fstr s ++ [""] ++ body),
                 saved := s.file_handler.saved },
             events := s.events ++ [Event.stateChanged "104"] ++ statusEvents body }
    l2 hc rfl hp2 hcode2 hbody
  rw [hproj, hrun, hA, hcl]
  simp [closeFile]

/-- Witness for C3 with one record line from the fresh state. -/
theorem c3_witness :
    (∀ x ∈ ["0,0,1,0,0,0,1,0,0,0,1,0,0,0,0"], wfRecord x = true) ∧
    (runFinally (fun _ => "") initState
        ("104,0" :: (["0,0,1,0,0,0,1,0,0,0,1,0,0,0,0"] ++ ["105,0"]))).file_handler =
      { session_index := 2,
        file := none,
        saved := [["q_ti=None", "q_si=None", "q_fi=None", "initial_knee_angle=None",
                   "initial_ankle_angle=None", "", "0,0,1,0,0,0,1,0,0,0,1,0,0,0,0"]] } := by
  refine ⟨by decide, ?_⟩
  have h := c3_session_file (fun _ => "") initState "104,0"
    ["0,0,1,0,0,0,1,0,0,0,1,0,0,0,0"] "105,0"
    rfl rfl (by decide) (by decide) (by decide) (by decide) (by decide)
  rw [h]
  simp [initState, headerLines, serQuat, serVal]

lemma takeWhile_append_stop {α : Type} {p : α → Bool} {y : α} (ys xs : List α)
    (hx : ∀ x ∈ xs, p x = true) (hy : p y = false) :
    (xs ++ y :: ys).takeWhile p = xs ∧ (xs ++ y :: ys).dropWhile p = y :: ys := by
  induction xs with
  | nil =>
    simp [List.takeWhile_cons, List.dropWhile_cons, hy]
  | cons a as ih =>
    have ha := hx a (by simp)
    have hrest := ih (fun x hxm => hx x (by simp [hxm]))
    simp [List.takeWhile_cons, List.dropWhile_cons, ha, hrest.1, hrest.2]

lemma filter_of_all {α : Type} {p : α → Bool} :
    ∀ {xs : List α}, (∀ x ∈ xs, p x = true) → xs.filter p = xs := by
  intro xs
  induction xs with
  | nil => intro _; rfl
  | cons a as ih =>
    intro h
    simp [List.filter_cons, h a (by simp), ih (fun x hx => h x (by simp [hx]))]

lemma append_ne_empty_of_left {k : String} (x : String) (hk : k.data ≠ []) :
    (k ++ x) ≠ "" := by
  intro h
  have h2 : (k ++ x).data = ("" : String).data := congrArg String.data h
  rcases k with ⟨kd⟩
  rcases x with ⟨xd⟩
  simp only [show (String.mk kd ++ String.mk xd).data = kd ++ xd from rfl] at h2
  exact hk (List.append_eq_nil.mp (by simpa using h2)).1

lemma headerLines_ne_empty (fstr : ℝ → String) (s : MachineState) :
    ∀ x ∈ headerLines fstr s, x ≠ "" := by
  intro x hx
  simp only [headerLines, List.mem_cons, List.not_mem_nil, or_false] at hx
  rcases hx with h | h | h | h | h <;> subst h <;>
    exact append_ne_empty_of_left _ (by decide)

lemma loadData_session (hdr body : List String) (rows : List (List ℚ))
    (ti si fi : Quat)
    (hhdr : ∀ x ∈ hdr, x ≠ "")
    (hload : loadHeaderPose hdr = some (ti, si, fi))
    (hbody : ∀ x ∈ body, x ≠ "")
    (hb2 : 2 ≤ body.length)
    (hparse : parseBuffer body = some rows)
    (hhead : 15 ≤ (rows.headD []).length) (heq : eqLen rows = true) :
    loadData (hdr ++ [""] ++ body) =
      some (loadKneeAngles ti si (rowsToR rows), loadAnkleAngles si fi (rowsToR rows)) := by
  have hsplit := takeWhile_append_stop (p := fun l => decide (l ≠ "")) (y := "") body
    hdr (fun x hx => decide_eq_true (hhdr x hx)) (by simp)
  have hr2 : 2 ≤ rows.length := by
    rw [mapOpt_length (show mapOpt parseRecord body = some rows from hparse)]
    exact hb2
  rw [List.headD_eq_head?] at hhead
  rw [loadData, show hdr ++ [""] ++ body = hdr ++ ("" :: body) from by simp]
  rw [hsplit.1, hsplit.2]
  simp only [List.drop_one, List.tail_cons]
  rw [filter_of_all (fun x hx => decide_eq_true (hbody x hx)), hload, hparse]
  simp [hr2, hhead, heq]

lemma loadData_single_row (hdr body : List String) (rows : List (List ℚ))
    (ti si fi : Quat)
    (hhdr : ∀ x ∈ hdr, x ≠ "")
    (hload : loadHeaderPose hdr = some (ti, si, fi))
    (hbody : ∀ x ∈ body, x ≠ "")
    (hparse : parseBuffer body = some rows)
    (hlt : rows.length < 2) :
    loadData (hdr ++ [""] ++ body) = none := by
  have hsplit := takeWhile_append_stop (p := fun l => decide (l ≠ "")) (y := "") body
    hdr (fun x hx => decide_eq_true (hhdr x hx)) (by simp)
  have hn2 : ¬ 2 ≤ rows.length := Nat.not_le.mpr hlt
  rw [loadData, show hdr ++ [""] ++ body = hdr ++ ("" :: body) from by simp]
  rw [hsplit.1, hsplit.2]
  simp only [List.drop_one, List.tail_cons]
  rw [filter_of_all (fun x hx => decide_eq_true (hbody x hx)), hload, hparse]
  simp [hn2]

lemma step_105_ok (fstr : ℝ → String) (s2 : MachineState) (l2 : String)
    (rows : List (List ℚ)) (ti si fi : Quat)
    (hc : s2.crashed = false) (hcol : s2.collecting = true)
    (hp2 : hasPayload l2 = true) (hcode2 : lineCode l2 = "105")
    (hbne : s2.data_buffer ≠ [])
    (hparse : parseBuffer s2.data_buffer = some rows)
    (hhead : 15 ≤ (rows.headD []).length) (heq : eqLen rows = true)
    (hti : s2.q_ti = some ti) (hsi : s2.q_si = some si) (hfi : s2.q_fi = some fi) :
    step fstr s2 l2 =
      { s2 with data_buffer := [],
                collecting := false,
                file_handler := closeFile s2.file_handler,
                events := s2.events ++ [Event.stateChanged "105",
                  Event.dataProcessed (colTime (rowsToR rows)) ((rowsToR rows).map rowQuats)
                    (colPressure (rowsToR rows)) (kneeAngles ti si (rowsToR rows))
                    (ankleAngles si fi (rowsToR rows))] } := by
  rw [step_105 fstr s2 l2 hc hcol hp2 hcode2]
  have hP := processData_ok
    { s2 with events := s2.events ++ [Event.stateChanged "105"] } rows ti si fi
    hbne hparse hhead heq hti hsi hfi
  rw [hP]
  simp [hc]

lemma load_series_eq_online :
    loadKneeAngles = kneeAngles ∧ loadAnkleAngles = ankleAngles := by
  constructor
  · funext ti si rows
    simp [loadKneeAngles, kneeAngles, loadQK, qKList, kneeQuat]
  · funext si fi rows
    simp [loadAnkleAngles, ankleAngles, loadQA, qAList, ankleQuat]

/-- C7 (amended): for a session file written during a recording
session run with a calibrated pose and at least two records,
reconstructing the pose from the header (the hypothesis that the float
formatter round-trips through the header parser, which holds for the
exact repr-based formatting of the original) and recomputing the angle
series from the body lines of the file yields exactly the knee and
ankle series emitted by the online computation: both are the same
kneeAngles and ankleAngles values, identical term for term. With
exactly one record the reload raises instead, because np.loadtxt
squeezes the single row to one dimension, so the two-record lower
bound is necessary. -/
theorem c7_amended (fstr : ℝ → String) (s : MachineState)
    (l1 : String) (body : List String) (l2 : String)
    (rows : List (List ℚ)) (ti si fi : Quat)
    (hc : s.crashed = false) (hfile : s.file_handler.file = none)
    (hti : s.q_ti = some ti) (hsi : s.q_si = some si) (hfi : s.q_fi = some fi)
    (hp1 : hasPayload l1 = true) (hcode1 : lineCode l1 = "104")
    (hp2 : hasPayload l2 = true) (hcode2 : lineCode l2 = "105")
    (hbody : ∀ x ∈ body, wfRecord x = true)
    (hb2 : 2 ≤ body.length)
    (hparse : parseBuffer body = some rows)
    (hload : loadHeaderPose (headerLines fstr s) = some (ti, si, fi)) :
    (runFinally fstr s (l1 :: (body ++ [l2]))).file_handler.saved =
      s.file_handler.saved ++ [headerLines fstr s ++ [""] ++ body] ∧
    (runFinally fstr s (l1 :: (body ++ [l2]))).events =
      s.events ++ [Event.stateChanged "104"] ++ statusEvents body ++
        [Event.stateChanged "105",
         Event.dataProcessed (colTime (rowsToR rows)) ((rowsToR rows).map rowQuats)
           (colPressure (rowsToR rows)) (kneeAngles ti si (rowsToR rows))
           (ankleAngles si fi (rowsToR rows))] ∧
    loadData (headerLines fstr s ++ [""] ++ body) =
      some (kneeAngles ti si (rowsToR rows), ankleAngles si fi (rowsToR rows)) := by
  have hall15 : ∀ r ∈ rows, r.length = 15 := by
    obtain ⟨rows2, hparse2, hlenEq2, hall⟩ :=
      mapOpt_some_of_forall (fun l hl => (wfRecord_spec (hbody l hl)).2)
    obtain rfl : rows2 = rows := Option.some_inj.mp
      ((show parseBuffer body = some rows2 from hparse2).symm.trans hparse)
    exact hall
  have hlenEq : rows.length = body.length :=
    mapOpt_length (show mapOpt parseRecord body = some rows from hparse)
  have hbne : body ≠ [] := by
    intro h
    rw [h] at hb2
    simp at hb2
  have hrne : rows ≠ [] := by
    intro h
    rw [h] at hlenEq
    exact hbne (List.length_eq_zero.mp hlenEq.symm)
  have hhead := headD_len_of_all hrne hall15
  have heq := eqLen_of_all hall15
  have hA := session_open_and_body fstr s l1 body hc hfile hp1 hcode1 hbody
  have hrun : run fstr s (l1 :: (body ++ [l2])) =
      step fstr (run fstr s (l1 :: body)) l2 := by
    rw [run, show l1 :: (body ++ [l2]) = (l1 :: body) ++ [l2] from rfl,
      List.foldl_append]
    rfl
  have hstep := step_105_ok fstr
    { s with collecting := true, data_buffer := body,
             file_handler :=
               { session_index := s.file_handler.session_index + 1,
                 file := some (headerLines fstr s ++ [""] ++ body),
                 saved := s.file_handler.saved },
             events := s.events ++ [Event.stateChanged "104"] ++ statusEvents body }
    l2 rows ti si fi hc rfl hp2 hcode2 hbne hparse hhead heq hti hsi hfi
  have hfin : runFinally fstr s (l1 :: (body ++ [l2])) =
      { run fstr s (l1 :: (body ++ [l2])) with
          file_handler := closeFile (run fstr s (l1 :: (body ++ [l2]))).file_handler } := rfl
  rw [hfin, hrun, hA, hstep]
  refine ⟨by simp [closeFile], by simp, ?_⟩
  have hL := loadData_session (headerLines fstr s) body rows ti si fi
    (headerLines_ne_empty fstr s) hload
    (fun x hx => by
      obtain ⟨-, r, hr, -⟩ := wfRecord_spec (hbody x hx)
      exact parseRecord_ne_empty hr)
    hb2 hparse hhead heq
  rw [load_series_eq_online.1, load_series_eq_online.2] at hL
  exact hL

lemma serOneZero_headerLines (s : MachineState)
    (hti : s.q_ti = some Quat.one) (hsi : s.q_si = some Quat.one)
    (hfi : s.q_fi = some Quat.one) (hk : s.initial_knee_angle = some 0)
    (ha : s.initial_ankle_angle = some 0) :
    headerLines serOneZero s =
      ["q_ti=1,0,0,0", "q_si=1,0,0,0", "q_fi=1,0,0,0",
       "initial_knee_angle=0", "initial_ankle_angle=0"] := by
  simp [headerLines, serQuat, serVal, serOneZero, joinSep, Quat.one,
    hti, hsi, hfi, hk, ha]

lemma loadHeaderPose_concrete :
    loadHeaderPose ["q_ti=1,0,0,0", "q_si=1,0,0,0", "q_fi=1,0,0,0",
      "initial_knee_angle=0", "initial_ankle_angle=0"] =
      some (Quat.one, Quat.one, Quat.one) := by
  have h1 : mapOpt parseHeaderKV
      ["q_ti=1,0,0,0", "q_si=1,0,0,0", "q_fi=1,0,0,0",
       "initial_knee_angle=0", "initial_ankle_angle=0"] =
      some [("q_ti", [1, 0, 0, 0]), ("q_si", [1, 0, 0, 0]), ("q_fi", [1, 0, 0, 0]),
            ("initial_knee_angle", [0]), ("initial_ankle_angle", [0])] := by
    decide
  have hti : List.lookup "q_ti"
      [("initial_ankle_angle", ([0] : List ℚ)), ("initial_knee_angle", [0]),
       ("q_fi", [1, 0, 0, 0]), ("q_si", [1, 0, 0, 0]), ("q_ti", [1, 0, 0, 0])] =
      some [1, 0, 0, 0] := by decide
  have hsi : List.lookup "q_si"
      [("initial_ankle_angle", ([0] : List ℚ)), ("initial_knee_angle", [0]),
       ("q_fi", [1, 0, 0, 0]), ("q_si", [1, 0, 0, 0]), ("q_ti", [1, 0, 0, 0])] =
      some [1, 0, 0, 0] := by decide
  have hfi : List.lookup "q_fi"
      [("initial_ankle_angle", ([0] : List ℚ)), ("initial_knee_angle", [0]),
       ("q_fi", [1, 0, 0, 0]), ("q_si", [1, 0, 0, 0]), ("q_ti", [1, 0, 0, 0])] =
      some [1, 0, 0, 0] := by decide
  rw [loadHeaderPose, h1]
  simp [getQuat, hti, hsi, hfi, Quat.one]

/-- Witness for C7 (amended): a calibrated state with the identity
pose, the exact formatter, two record lines; the header round-trips
and the recomputed series equals the emitted series. -/
theorem c7_witness :
    loadHeaderPose (headerLines serOneZero
      { initState with q_ti := some Quat.one, q_si := some Quat.one, q_fi := some Quat.one,
                       initial_knee_angle := some 0, initial_ankle_angle := some 0 }) =
      some (Quat.one, Quat.one, Quat.one) ∧
    loadData (headerLines serOneZero
        { initState with q_ti := some Quat.one, q_si := some Quat.one, q_fi := some Quat.one,
                         initial_knee_angle := some 0, initial_ankle_angle := some 0 } ++
        [""] ++ ["0,0,1,0,0,0,1,0,0,0,1,0,0,0,0", "0,1,1,0,0,0,1,0,0,0,1,0,0,0,0"]) =
      some (kneeAngles Quat.one Quat.one
              (rowsToR [[0, 0, 1, 0, 0, 0, 1, 0, 0, 0, 1, 0, 0, 0, 0],
                        [0, 1, 1, 0, 0, 0, 1, 0, 0, 0, 1, 0, 0, 0, 0]]),
            ankleAngles Quat.one Quat.one
              (rowsToR [[0, 0, 1, 0, 0, 0, 1, 0, 0, 0, 1, 0, 0, 0, 0],
                        [0, 1, 1, 0, 0, 0, 1, 0, 0, 0, 1, 0, 0, 0, 0]])) := by
  have hload : loadHeaderPose (headerLines serOneZero
      { initState with q_ti := some Quat.one, q_si := some Quat.one, q_fi := some Quat.one,
                       initial_knee_angle := some 0, initial_ankle_angle := some 0 }) =
      some (Quat.one, Quat.one, Quat.one) := by
    rw [serOneZero_headerLines _ rfl rfl rfl rfl rfl]
    exact loadHeaderPose_concrete
  refine ⟨hload, ?_⟩
  exact (c7_amended serOneZero
    { initState with q_ti := some Quat.one, q_si := some Quat.one, q_fi := some Quat.one,
                     initial_knee_angle := some 0, initial_ankle_angle := some 0 }
    "104,0" ["0,0,1,0,0,0,1,0,0,0,1,0,0,0,0", "0,1,1,0,0,0,1,0,0,0,1,0,0,0,0"] "105,0"
    [[0, 0, 1, 0, 0, 0, 1, 0, 0, 0, 1, 0, 0, 0, 0],
     [0, 1, 1, 0, 0, 0, 1, 0, 0, 0, 1, 0, 0, 0, 0]] Quat.one Quat.one Quat.one
    rfl rfl rfl rfl rfl (by decide) (by decide) (by decide) (by decide)
    (by decide) (by decide) (by decide) hload).2.2

/-- C7 counterexample: a recording session with exactly one record
writes a well-formed session file and the online computation emits a
one-entry knee and ankle series, but reloading that very file yields
no recomputed series at all: np.loadtxt returns the single body row as
a one-dimensional array, so the column slicing of load_data raises.
The round trip therefore fails on one-record session files, refuting
the claim as stated. -/
theorem c7_counterexample :
    (runFinally serOneZero
        { collecting := false, data_buffer := [], q_ti := some Quat.one, q_si := some Quat.one, q_fi := some Quat.one, initial_knee_angle := some 0, initial_ankle_angle := some 0, file_handler := { session_index := 1, file := none, saved := [] }, events := [], crashed := false }
        ("104,0" :: (["0,0,1,0,0,0,1,0,0,0,1,0,0,0,0"] ++ ["105,0"]))).file_handler.saved =
      [["q_ti=1,0,0,0", "q_si=1,0,0,0", "q_fi=1,0,0,0", "initial_knee_angle=0",
        "initial_ankle_angle=0", "", "0,0,1,0,0,0,1,0,0,0,1,0,0,0,0"]] ∧
    (runFinally serOneZero
        { collecting := false, data_buffer := [], q_ti := some Quat.one, q_si := some Quat.one, q_fi := some Quat.one, initial_knee_angle := some 0, initial_ankle_angle := some 0, file_handler := { session_index := 1, file := none, saved := [] }, events := [], crashed := false }
        ("104,0" :: (["0,0,1,0,0,0,1,0,0,0,1,0,0,0,0"] ++ ["105,0"]))).events =
      [Event.stateChanged "104", Event.stateChanged "105",
       Event.dataProcessed
         (colTime (rowsToR [[0, 0, 1, 0, 0, 0, 1, 0, 0, 0, 1, 0, 0, 0, 0]]))
         ((rowsToR [[0, 0, 1, 0, 0, 0, 1, 0, 0, 0, 1, 0, 0, 0, 0]]).map rowQuats)
         (colPressure (rowsToR [[0, 0, 1, 0, 0, 0, 1, 0, 0, 0, 1, 0, 0, 0, 0]]))
         (kneeAngles Quat.one Quat.one (rowsToR [[0, 0, 1, 0, 0, 0, 1, 0, 0, 0, 1, 0, 0, 0, 0]]))
         (ankleAngles Quat.one Quat.one (rowsToR [[0, 0, 1, 0, 0, 0, 1, 0, 0, 0, 1, 0, 0, 0, 0]]))] ∧
    loadData ["q_ti=1,0,0,0", "q_si=1,0,0,0", "q_fi=1,0,0,0", "initial_knee_angle=0",
              "initial_ankle_angle=0", "", "0,0,1,0,0,0,1,0,0,0,1,0,0,0,0"] = none := by
  have hA := session_open_and_body serOneZero
    { collecting := false, data_buffer := [], q_ti := some Quat.one, q_si := some Quat.one, q_fi := some Quat.one, initial_knee_angle := some 0, initial_ankle_angle := some 0, file_handler := { session_index := 1, file := none, saved := [] }, events := [], crashed := false }
    "104,0" ["0,0,1,0,0,0,1,0,0,0,1,0,0,0,0"]
    rfl rfl (by decide) (by decide) (by decide)
  have hstep := step_105_ok serOneZero
    (run serOneZero
      { collecting := false, data_buffer := [], q_ti := some Quat.one, q_si := some Quat.one, q_fi := some Quat.one, initial_knee_angle := some 0, initial_ankle_angle := some 0, file_handler := { session_index := 1, file := none, saved := [] }, events := [], crashed := false }
      ["104,0", "0,0,1,0,0,0,1,0,0,0,1,0,0,0,0"])
    "105,0" [[0, 0, 1, 0, 0, 0, 1, 0, 0, 0, 1, 0, 0, 0, 0]] Quat.one Quat.one Quat.one
    (by simp [hA]) (by simp [hA]) (by decide) (by decide)
    (by simp [hA]) (by simp only [hA]; decide) (by decide) (by decide)
    (by simp [hA]) (by simp [hA]) (by simp [hA])
  have hse : statusEvents ["0,0,1,0,0,0,1,0,0,0,1,0,0,0,0"] = [] := by
    have hlc : lineCode "0,0,1,0,0,0,1,0,0,0,1,0,0,0,0" = "0" := by decide
    simp [statusEvents, hlc]
  refine ⟨?_, ?_, ?_⟩
  · have hp1 : (runFinally serOneZero
        { collecting := false, data_buffer := [], q_ti := some Quat.one, q_si := some Quat.one, q_fi := some Quat.one, initial_knee_angle := some 0, initial_ankle_angle := some 0, file_handler := { session_index := 1, file := none, saved := [] }, events := [], crashed := false }
        ("104,0" :: (["0,0,1,0,0,0,1,0,0,0,1,0,0,0,0"] ++ ["105,0"]))).file_handler =
        closeFile (step serOneZero (run serOneZero
          { collecting := false, data_buffer := [], q_ti := some Quat.one, q_si := some Quat.one, q_fi := some Quat.one, initial_knee_angle := some 0, initial_ankle_angle := some 0, file_handler := { session_index := 1, file := none, saved := [] }, events := [], crashed := false }
          ["104,0", "0,0,1,0,0,0,1,0,0,0,1,0,0,0,0"]) "105,0").file_handler := rfl
    have hcl := close_after_105 serOneZero
      (run serOneZero
        { collecting := false, data_buffer := [], q_ti := some Quat.one, q_si := some Quat.one, q_fi := some Quat.one, initial_knee_angle := some 0, initial_ankle_angle := some 0, file_handler := { session_index := 1, file := none, saved := [] }, events := [], crashed := false }
        ["104,0", "0,0,1,0,0,0,1,0,0,0,1,0,0,0,0"])
      "105,0" (by simp [hA]) (by simp [hA]) (by decide) (by decide)
      (by simp only [hA]; decide)
    rw [hp1, hcl, hA,
      serOneZero_headerLines _ rfl rfl rfl rfl rfl]
    simp [closeFile]
  · have hp2 : (runFinally serOneZero
        { collecting := false, data_buffer := [], q_ti := some Quat.one, q_si := some Quat.one, q_fi := some Quat.one, initial_knee_angle := some 0, initial_ankle_angle := some 0, file_handler := { session_index := 1, file := none, saved := [] }, events := [], crashed := false }
        ("104,0" :: (["0,0,1,0,0,0,1,0,0,0,1,0,0,0,0"] ++ ["105,0"]))).events =
        (step serOneZero (run serOneZero
          { collecting := false, data_buffer := [], q_ti := some Quat.one, q_si := some Quat.one, q_fi := some Quat.one, initial_knee_angle := some 0, initial_ankle_angle := some 0, file_handler := { session_index := 1, file := none, saved := [] }, events := [], crashed := false }
          ["104,0", "0,0,1,0,0,0,1,0,0,0,1,0,0,0,0"]) "105,0").events := rfl
    rw [hp2, hstep, hA]
    simp [hse]
  · rw [show (["q_ti=1,0,0,0", "q_si=1,0,0,0", "q_fi=1,0,0,0", "initial_knee_angle=0",
        "initial_ankle_angle=0", "", "0,0,1,0,0,0,1,0,0,0,1,0,0,0,0"] : List String) =
      ["q_ti=1,0,0,0", "q_si=1,0,0,0", "q_fi=1,0,0,0", "initial_knee_angle=0",
       "initial_ankle_angle=0"] ++ [""] ++ ["0,0,1,0,0,0,1,0,0,0,1,0,0,0,0"] from rfl]
    exact loadData_single_row
      ["q_ti=1,0,0,0", "q_si=1,0,0,0", "q_fi=1,0,0,0", "initial_knee_angle=0",
       "initial_ankle_angle=0"]
      ["0,0,1,0,0,0,1,0,0,0,1,0,0,0,0"]
      [[0, 0, 1, 0, 0, 0, 1, 0, 0, 0, 1, 0, 0, 0, 0]] Quat.one Quat.one Quat.one
      (by decide) loadHeaderPose_concrete (by decide) (by decide) (by decide)
